import Mathlib

/-
Verification of the supriya_music command line toolkit against its
specification.  The toolkit is a thin orchestration layer:

  * src/supriya_music/config.py  - YAML configuration loader (module level)
  * src/supriya_music/hello.py   - server session runner and explanation mode
  * src/supriya_music/info.py    - device inspector (pandas table rendering)
  * src/supriya_music/app.py     - CLI dispatcher with a README fallback

The embedding below translates each piece of the Python source into pure
Lean definitions.  Interaction with the outside world (the filesystem, the
YAML parser, the external SuperCollider server and the OS audio device
snapshot) is abstracted into explicit parameters or an oracle structure,
while the control flow of the Python functions themselves is translated
statement by statement.
-/

/- ### YAML values and Python-level errors -/

/-- YAML values as produced by yaml.safe_load: null, booleans, integers,
strings, sequences and mappings.  Mappings keep their entries as an
association list. -/
inductive Yaml where
  | null
  | bool (b : Bool)
  | int (n : Int)
  | str (s : String)
  | list (items : List Yaml)
  | map (entries : List (String × Yaml))

/-- Python truthiness of a YAML value (used by `if CONFIG.get("audio"):`
in hello.py): None, False, 0, empty string and empty containers are
falsy, everything else is truthy. -/
def Yaml.truthy : Yaml → Bool
  | .null => false
  | .bool b => b
  | .int n => n != 0
  | .str s => s != ""
  | .list items => !items.isEmpty
  | .map entries => !entries.isEmpty

/-- Whether a YAML value is a mapping (a Python dict). -/
def Yaml.isMap : Yaml → Bool
  | .map _ => true
  | _ => false

/-- The Python exception kinds relevant to this program. -/
inductive PyErr where
  | fileNotFound
  | attributeError
  | typeError
  | keyError
  | serverCannotBoot
  | runtimeError
  deriving DecidableEq

/- ### config.py -/

/-- Resolution of CONFIG_PATH in config.py: the environment variable
SUPRIYA_CONFIG_PATH (None when unset) wins when it is truthy (non-empty)
and os.path.exists holds of it; otherwise the default is
os.path.join(os.getcwd(), "supriya.config.yaml").  `pathExists` stands
for os.path.exists. -/
def configPath (envVar : Option String) (pathExists : String → Bool) (cwd : String) : String :=
  match envVar with
  | some p => if (p != "") && pathExists p then p else cwd ++ "/supriya.config.yaml"
  | none => cwd ++ "/supriya.config.yaml"

/-- The CONFIG loading in config.py.  `fileContents` is the contents of
the file at CONFIG_PATH (none when opening raises FileNotFoundError) and
`parse` stands for yaml.safe_load.  The Python code wraps the whole read
in `except (FileNotFoundError, Exception)`, which catches every
exception, logs a warning and substitutes the empty dict.  The result is
the CONFIG value paired with whether the warning was emitted; the
function is total, so loading never raises to the caller. -/
def loadConfig (fileContents : Option String) (parse : String → Except String Yaml) :
    Yaml × Bool :=
  match fileContents with
  | none => (.map [], true)
  | some contents =>
    match parse contents with
    | .ok v => (v, false)
    | .error _ => (.map [], true)

/- ### Theorems about config.py -/

/-- C4: for every configuration file that is missing (FileNotFoundError on
open) or syntactically invalid (yaml.safe_load raises), the loader yields
the empty mapping and emits a warning; `loadConfig` is a total function,
so it never raises to the caller. -/
theorem loadConfig_failure_empty (parse : String → Except String Yaml)
    (contents msg : String) (h : parse contents = .error msg) :
    loadConfig none parse = (Yaml.map [], true) ∧
    loadConfig (some contents) parse = (Yaml.map [], true) := by
  refine ⟨rfl, ?_⟩
  simp [loadConfig, h]

/-- Witness for C4 at a concrete failing parser and input. -/
theorem loadConfig_failure_empty_witness :
    (fun _ : String => (Except.error "bad yaml" : Except String Yaml)) ": :" =
      Except.error "bad yaml" ∧
    (loadConfig none (fun _ => Except.error "bad yaml") = (Yaml.map [], true) ∧
      loadConfig (some ": :") (fun _ => Except.error "bad yaml") = (Yaml.map [], true)) :=
  ⟨rfl, loadConfig_failure_empty (fun _ => Except.error "bad yaml") ": :" "bad yaml" rfl⟩

/-- C9: when SUPRIYA_CONFIG_PATH is set and names an existing file, the
configuration path is that value; otherwise (unset, or set but the file
does not exist) it is supriya.config.yaml under the current working
directory.  The hypothesis `hempty` records that os.path.exists is false
on the empty string, so an empty environment value never names an
existing file. -/
theorem configPath_env_override (envVar : Option String) (pathExists : String → Bool)
    (cwd : String) (hempty : pathExists "" = false) :
    (∀ p, envVar = some p → pathExists p = true → configPath envVar pathExists cwd = p) ∧
    ((∀ p, envVar = some p → pathExists p = false) →
      configPath envVar pathExists cwd = cwd ++ "/supriya.config.yaml") := by
  constructor
  · intro p hp hex
    subst hp
    have hpne : p ≠ "" := by
      intro he
      rw [he, hempty] at hex
      exact Bool.noConfusion hex
    simp [configPath, hex, hpne]
  · intro hall
    cases envVar with
    | none => rfl
    | some p =>
      have hfalse := hall p rfl
      simp [configPath, hfalse]

/-- Witness for C9: an environment path that exists is used; a second
application at an unset variable falls back to the default path. -/
theorem configPath_env_override_witness :
    (fun s => s == "cfg.yaml") "" = false ∧
    ((∀ p, (some "cfg.yaml" : Option String) = some p →
        (fun s => s == "cfg.yaml") p = true →
        configPath (some "cfg.yaml") (fun s => s == "cfg.yaml") "/home/user" = p) ∧
      ((∀ p, (some "cfg.yaml" : Option String) = some p →
          (fun s => s == "cfg.yaml") p = false) →
        configPath (some "cfg.yaml") (fun s => s == "cfg.yaml") "/home/user" =
          "/home/user" ++ "/supriya.config.yaml")) :=
  ⟨rfl, configPath_env_override (some "cfg.yaml") (fun s => s == "cfg.yaml") "/home/user" rfl⟩

/- ### hello.py: the session runner -/

/-- Observable events of one run of hello: console messages, server boot
attempts (with their result), server commands and pauses.  Frequencies
are the integers computed by 220 * (2**i); amplitudes are rationals. -/
inductive Event where
  | printExplain
  | printAudioBootMsg (path : String)
  | printAttemptMsg
  | printDefaultBootMsg
  | boot (withOptions : Bool) (ok : Bool)
  | printBootFail (path : String)
  | printDevicesHint
  | addSynthdefs
  | sync
  | addGroup
  | addSynth (frequency : Nat) (amplitude : ℚ)
  | sleep (seconds : Nat)
  | freeSynth
  | quit
  deriving DecidableEq

/-- How a run of hello ends: a normal return, a sys.exit with a code, or
an uncaught Python exception (which makes the interpreter exit with
status 1 after printing a traceback). -/
inductive Outcome where
  | normal
  | exited (code : Nat)
  | raised (e : PyErr)
  deriving DecidableEq

/-- Process exit status resulting from an outcome of the typer command. -/
def exitStatus : Outcome → Nat
  | .normal => 0
  | .exited code => code
  | .raised _ => 1

/-- Oracle for the behaviour of the external supriya library during one
run: whether supriya.Options(**audio) accepts the mapping, whether
server.boot succeeds, and which of the server calls inside the try block
raise (indexed per loop iteration for the synth and free loops). -/
structure World where
  optionsOk : Bool
  bootOk : Bool
  failAddSynthdefs : Bool
  failSync : Bool
  failAddGroup : Bool
  failAddSynth : Nat → Bool
  failFree : Nat → Bool

/-- Runs a sequence of server calls in order.  Each entry pairs the
oracle bit saying whether that call raises with the event it emits on
success; execution stops at the first raising call, mirroring Python
exception propagation.  Returns the emitted events and the exception, if
any. -/
def seqSteps : List (Bool × Event) → List Event × Option PyErr
  | [] => ([], none)
  | (fails, e) :: rest =>
    if fails then ([], some .runtimeError)
    else
      let tr := seqSteps rest
      (e :: tr.1, tr.2)

/-- The body of the try block in hello: add_synthdefs, sync, add_group,
then for i in range(3) add a synth at frequency 220 * 2^i and amplitude
0.1 followed by time.sleep(1), then free each of the three synths in
group.children with a 1 second pause after each. -/
def playSteps (w : World) : List (Bool × Event) :=
  [(w.failAddSynthdefs, .addSynthdefs), (w.failSync, .sync), (w.failAddGroup, .addGroup)]
    ++ (List.range 3).flatMap
      (fun i => [(w.failAddSynth i, .addSynth (220 * 2 ^ i) ((1 : ℚ) / 10)),
                 (false, .sleep 1)])
    ++ (List.range 3).flatMap
      (fun i => [(w.failFree i, .freeSynth), (false, .sleep 1)])

/-- The try/finally around the session body: the body runs, and
server.quit() runs afterwards whether or not the body raised. -/
def sessionWithCleanup (w : World) : List Event × Outcome :=
  let body := seqSteps (playSteps w)
  (body.1 ++ [.quit],
    match body.2 with
    | none => .normal
    | some e => .raised e)

/-- The else branch of hello: no audio configuration was found, so the
server boots with default options.  A boot failure here is an uncaught
ServerCannotBoot (the except clause only guards the configured branch). -/
def bootDefault (w : World) : List Event × Outcome :=
  if w.bootOk then
    let s := sessionWithCleanup w
    (.printDefaultBootMsg :: .boot false true :: s.1, s.2)
  else
    ([.printDefaultBootMsg, .boot false false], .raised .serverCannotBoot)

/-- Python `CONFIG.get("audio")`: only a dict has a .get method, so any
non-mapping CONFIG (None, list, string, ...) raises AttributeError;
on a mapping the result is the stored value or None. -/
def pyGet (v : Yaml) (key : String) : Except PyErr (Option Yaml) :=
  match v with
  | .map entries => .ok (entries.lookup key)
  | _ => .error .attributeError

/-- Execution mode of hello (hello.py lines 92-145), statement by
statement: query CONFIG.get("audio"); when truthy, print the two
configuration messages, build supriya.Options(**CONFIG["audio"]) (a
TypeError there is uncaught), then boot inside the try/except
ServerCannotBoot whose handler prints the two diagnostics and calls
sys.exit(1); otherwise print the default message and boot with default
options.  After a successful boot the synthdef session runs inside
try/finally with server.quit() in the finally block. -/
def helloExec (cfg : Yaml) (cfgPath : String) (w : World) : List Event × Outcome :=
  match pyGet cfg "audio" with
  | .error e => ([], .raised e)
  | .ok audioVal =>
    match audioVal with
    | some audio =>
      if audio.truthy then
        if w.optionsOk then
          if w.bootOk then
            let s := sessionWithCleanup w
            (.printAudioBootMsg cfgPath :: .printAttemptMsg :: .boot true true :: s.1, s.2)
          else
            ([.printAudioBootMsg cfgPath, .printAttemptMsg, .boot true false,
              .printBootFail cfgPath, .printDevicesHint], .exited 1)
        else
          ([.printAudioBootMsg cfgPath, .printAttemptMsg], .raised .typeError)
      else
        bootDefault w
    | none => bootDefault w

/-- The hello command: explanation mode prints the static outline and
returns without touching any server; otherwise execution mode runs. -/
def hello (explain : Bool) (cfg : Yaml) (cfgPath : String) (w : World) :
    List Event × Outcome :=
  if explain then ([.printExplain], .normal)
  else helloExec cfg cfgPath w

/-- Whether an event is a server boot attempt. -/
def isBootAttempt : Event → Bool
  | .boot _ _ => true
  | _ => false

/-- Whether an event is a successful server boot. -/
def isBootSuccess : Event → Bool
  | .boot _ true => true
  | _ => false

/-- Whether an event is a synth creation. -/
def isAddSynth : Event → Bool
  | .addSynth _ _ => true
  | _ => false

/-- Number of server processes still running at the end of a trace:
successful boots minus quits (truncated subtraction; the program never
quits a server it did not boot). -/
def serversRunning (t : List Event) : Nat :=
  t.countP isBootSuccess - t.count Event.quit

/- ### Helper lemmas about the session body -/

/-- The events emitted by a step sequence form a sublist of the events of
its entries (a raising entry emits nothing and stops the run). -/
theorem seqSteps_sublist (l : List (Bool × Event)) :
    (seqSteps l).1.Sublist (l.map Prod.snd) := by
  induction l with
  | nil => exact List.Sublist.refl _
  | cons hd tl ih =>
    cases hd with
    | mk b e =>
      cases b with
      | true => exact List.nil_sublist _
      | false => exact List.Sublist.cons₂ e ih

/-- When no entry raises, the step sequence emits every event in order
and raises nothing. -/
theorem seqSteps_noFail (l : List (Bool × Event)) (h : ∀ q ∈ l, q.1 = false) :
    seqSteps l = (l.map Prod.snd, none) := by
  induction l with
  | nil => rfl
  | cons hd tl ih =>
    obtain ⟨b, e⟩ := hd
    have hb : b = false := h (b, e) (List.mem_cons_self _ _)
    subst hb
    have ih2 := ih (fun q hq => h q (List.mem_cons_of_mem _ hq))
    simp [seqSteps, ih2]

/-- The session body, laid out entry by entry. -/
theorem playSteps_eq (w : World) :
    playSteps w =
      [(w.failAddSynthdefs, .addSynthdefs), (w.failSync, .sync),
       (w.failAddGroup, .addGroup),
       (w.failAddSynth 0, .addSynth 220 ((1 : ℚ) / 10)), (false, .sleep 1),
       (w.failAddSynth 1, .addSynth 440 ((1 : ℚ) / 10)), (false, .sleep 1),
       (w.failAddSynth 2, .addSynth 880 ((1 : ℚ) / 10)), (false, .sleep 1),
       (w.failFree 0, .freeSynth), (false, .sleep 1),
       (w.failFree 1, .freeSynth), (false, .sleep 1),
       (w.failFree 2, .freeSynth), (false, .sleep 1)] := by
  simp [playSteps, List.range_succ]

/-- The session body mentions no quit event. -/
theorem playSteps_snd_count_quit (w : World) :
    ((playSteps w).map Prod.snd).count Event.quit = 0 := by
  rw [playSteps_eq]
  rfl

/-- The try/finally session emits the quit event exactly once, whatever
the oracle makes each server call do. -/
theorem sessionWithCleanup_count_quit (w : World) :
    (sessionWithCleanup w).1.count Event.quit = 1 := by
  have hle := (seqSteps_sublist (playSteps w)).count_le Event.quit
  rw [playSteps_snd_count_quit] at hle
  have h0 : (seqSteps (playSteps w)).1.count Event.quit = 0 := Nat.le_zero.mp hle
  simp [sessionWithCleanup, List.count_append, h0]

/-- C2: in every execution-mode run of hello in which the server boots
successfully, the server-quit call occurs exactly once, whatever the
configuration and whichever of the steps between synthdef registration
and quitting (registration, sync, group creation, synth creation, synth
freeing) the oracle makes raise. -/
theorem hello_quit_exactly_once (cfg : Yaml) (p : String) (w : World)
    (h : (hello false cfg p w).1.any isBootSuccess = true) :
    (hello false cfg p w).1.count Event.quit = 1 := by
  have hs := sessionWithCleanup_count_quit w
  cases cfg with
  | map entries =>
    cases hl : entries.lookup "audio" with
    | none =>
      cases hb : w.bootOk with
      | true => simp [hello, helloExec, pyGet, hl, bootDefault, hb, List.count_cons, hs]
      | false => simp [hello, helloExec, pyGet, hl, bootDefault, hb, isBootSuccess] at h
    | some a =>
      cases ht : a.truthy with
      | true =>
        cases ho : w.optionsOk with
        | true =>
          cases hb : w.bootOk with
          | true =>
            simp [hello, helloExec, pyGet, hl, ht, ho, hb, List.count_cons, hs]
          | false =>
            simp [hello, helloExec, pyGet, hl, ht, ho, hb, isBootSuccess] at h
        | false =>
          simp [hello, helloExec, pyGet, hl, ht, ho, isBootSuccess] at h
      | false =>
        cases hb : w.bootOk with
        | true => simp [hello, helloExec, pyGet, hl, ht, bootDefault, hb, List.count_cons, hs]
        | false => simp [hello, helloExec, pyGet, hl, ht, bootDefault, hb, isBootSuccess] at h
  | null => simp [hello, helloExec, pyGet, isBootSuccess] at h
  | bool b => simp [hello, helloExec, pyGet, isBootSuccess] at h
  | int n => simp [hello, helloExec, pyGet, isBootSuccess] at h
  | str s => simp [hello, helloExec, pyGet, isBootSuccess] at h
  | list items => simp [hello, helloExec, pyGet, isBootSuccess] at h

/-- Oracle in which the boot succeeds but the sync call raises. -/
def syncFailWorld : World :=
  ⟨true, true, false, true, false, fun _ => false, fun _ => false⟩

/-- Witness for C2: a run whose sync step raises still quits exactly once. -/
theorem hello_quit_exactly_once_witness :
    (hello false (Yaml.map []) "supriya.config.yaml" syncFailWorld).1.any isBootSuccess =
      true ∧
    (hello false (Yaml.map []) "supriya.config.yaml" syncFailWorld).1.count Event.quit = 1 :=
  ⟨rfl, hello_quit_exactly_once (Yaml.map []) "supriya.config.yaml" syncFailWorld rfl⟩

/-- C3: during a successful execution-mode run of hello (boot succeeds
and no server call raises), exactly three synths are created, in order,
at frequencies 220, 440 and 880 with amplitude 0.1 each, and each
creation is immediately followed by a 1 second pause. -/
theorem hello_play_sequence (entries : List (String × Yaml)) (p : String) (w : World)
    (hopt : w.optionsOk = true) (hboot : w.bootOk = true)
    (h1 : w.failAddSynthdefs = false) (h2 : w.failSync = false)
    (h3 : w.failAddGroup = false)
    (h4 : ∀ i, w.failAddSynth i = false) (h5 : ∀ i, w.failFree i = false) :
    (hello false (Yaml.map entries) p w).1.filter isAddSynth =
      [Event.addSynth 220 ((1 : ℚ) / 10), Event.addSynth 440 ((1 : ℚ) / 10),
       Event.addSynth 880 ((1 : ℚ) / 10)] ∧
    ∃ pre suf, (hello false (Yaml.map entries) p w).1 =
      pre ++ [Event.addSynth 220 ((1 : ℚ) / 10), Event.sleep 1,
              Event.addSynth 440 ((1 : ℚ) / 10), Event.sleep 1,
              Event.addSynth 880 ((1 : ℚ) / 10), Event.sleep 1] ++ suf := by
  have hplay : seqSteps (playSteps w) =
      ([Event.addSynthdefs, Event.sync, Event.addGroup,
        Event.addSynth 220 ((1 : ℚ) / 10), Event.sleep 1,
        Event.addSynth 440 ((1 : ℚ) / 10), Event.sleep 1,
        Event.addSynth 880 ((1 : ℚ) / 10), Event.sleep 1,
        Event.freeSynth, Event.sleep 1, Event.freeSynth, Event.sleep 1,
        Event.freeSynth, Event.sleep 1], none) := by
    rw [playSteps_eq, h1, h2, h3, h4 0, h4 1, h4 2, h5 0, h5 1, h5 2]
    rfl
  have hsession : sessionWithCleanup w =
      ([Event.addSynthdefs, Event.sync, Event.addGroup,
        Event.addSynth 220 ((1 : ℚ) / 10), Event.sleep 1,
        Event.addSynth 440 ((1 : ℚ) / 10), Event.sleep 1,
        Event.addSynth 880 ((1 : ℚ) / 10), Event.sleep 1,
        Event.freeSynth, Event.sleep 1, Event.freeSynth, Event.sleep 1,
        Event.freeSynth, Event.sleep 1, Event.quit], Outcome.normal) := by
    simp only [sessionWithCleanup, hplay]
    rfl
  cases hl : entries.lookup "audio" with
  | none =>
    have htrace : hello false (Yaml.map entries) p w =
        ([Event.printDefaultBootMsg, Event.boot false true,
          Event.addSynthdefs, Event.sync, Event.addGroup,
          Event.addSynth 220 ((1 : ℚ) / 10), Event.sleep 1,
          Event.addSynth 440 ((1 : ℚ) / 10), Event.sleep 1,
          Event.addSynth 880 ((1 : ℚ) / 10), Event.sleep 1,
          Event.freeSynth, Event.sleep 1, Event.freeSynth, Event.sleep 1,
          Event.freeSynth, Event.sleep 1, Event.quit], Outcome.normal) := by
      simp only [hello, helloExec, pyGet, hl, bootDefault, hboot, hsession,
        Bool.false_eq_true, if_false, if_true]
    rw [htrace]
    exact ⟨rfl,
      ⟨[Event.printDefaultBootMsg, Event.boot false true,
        Event.addSynthdefs, Event.sync, Event.addGroup],
       [Event.freeSynth, Event.sleep 1, Event.freeSynth, Event.sleep 1,
        Event.freeSynth, Event.sleep 1, Event.quit], rfl⟩⟩
  | some a =>
    cases ht : a.truthy with
    | false =>
      have htrace : hello false (Yaml.map entries) p w =
          ([Event.printDefaultBootMsg, Event.boot false true,
            Event.addSynthdefs, Event.sync, Event.addGroup,
            Event.addSynth 220 ((1 : ℚ) / 10), Event.sleep 1,
            Event.addSynth 440 ((1 : ℚ) / 10), Event.sleep 1,
            Event.addSynth 880 ((1 : ℚ) / 10), Event.sleep 1,
            Event.freeSynth, Event.sleep 1, Event.freeSynth, Event.sleep 1,
            Event.freeSynth, Event.sleep 1, Event.quit], Outcome.normal) := by
        simp only [hello, helloExec, pyGet, hl, ht, bootDefault, hboot, hsession,
          Bool.false_eq_true, if_false, if_true]
      rw [htrace]
      exact ⟨rfl,
        ⟨[Event.printDefaultBootMsg, Event.boot false true,
          Event.addSynthdefs, Event.sync, Event.addGroup],
         [Event.freeSynth, Event.sleep 1, Event.freeSynth, Event.sleep 1,
          Event.freeSynth, Event.sleep 1, Event.quit], rfl⟩⟩
    | true =>
      have htrace : hello false (Yaml.map entries) p w =
          ([Event.printAudioBootMsg p, Event.printAttemptMsg, Event.boot true true,
            Event.addSynthdefs, Event.sync, Event.addGroup,
            Event.addSynth 220 ((1 : ℚ) / 10), Event.sleep 1,
            Event.addSynth 440 ((1 : ℚ) / 10), Event.sleep 1,
            Event.addSynth 880 ((1 : ℚ) / 10), Event.sleep 1,
            Event.freeSynth, Event.sleep 1, Event.freeSynth, Event.sleep 1,
            Event.freeSynth, Event.sleep 1, Event.quit], Outcome.normal) := by
        simp only [hello, helloExec, pyGet, hl, ht, hopt, hboot, hsession,
          Bool.false_eq_true, if_false, if_true]
      rw [htrace]
      exact ⟨rfl,
        ⟨[Event.printAudioBootMsg p, Event.printAttemptMsg, Event.boot true true,
          Event.addSynthdefs, Event.sync, Event.addGroup],
         [Event.freeSynth, Event.sleep 1, Event.freeSynth, Event.sleep 1,
          Event.freeSynth, Event.sleep 1, Event.quit], rfl⟩⟩

/-- Oracle in which the boot succeeds and no server call raises. -/
def idleWorld : World :=
  ⟨true, true, false, false, false, fun _ => false, fun _ => false⟩

/-- Witness for C3 at a concrete configuration and the failure-free oracle. -/
theorem hello_play_sequence_witness :
    (idleWorld.optionsOk = true ∧ idleWorld.bootOk = true ∧
      idleWorld.failAddSynthdefs = false ∧ idleWorld.failSync = false ∧
      idleWorld.failAddGroup = false ∧
      (∀ i, idleWorld.failAddSynth i = false) ∧ (∀ i, idleWorld.failFree i = false)) ∧
    ((hello false (Yaml.map []) "supriya.config.yaml" idleWorld).1.filter isAddSynth =
        [Event.addSynth 220 ((1 : ℚ) / 10), Event.addSynth 440 ((1 : ℚ) / 10),
         Event.addSynth 880 ((1 : ℚ) / 10)] ∧
      ∃ pre suf, (hello false (Yaml.map []) "supriya.config.yaml" idleWorld).1 =
        pre ++ [Event.addSynth 220 ((1 : ℚ) / 10), Event.sleep 1,
                Event.addSynth 440 ((1 : ℚ) / 10), Event.sleep 1,
                Event.addSynth 880 ((1 : ℚ) / 10), Event.sleep 1] ++ suf) :=
  ⟨⟨rfl, rfl, rfl, rfl, rfl, fun _ => rfl, fun _ => rfl⟩,
    hello_play_sequence [] "supriya.config.yaml" idleWorld rfl rfl rfl rfl rfl
      (fun _ => rfl) (fun _ => rfl)⟩

/-- C5: hello with the explain flag never attempts to boot a server and
always exits with status 0, whatever the configuration value, the
configuration path and the behaviour of the external server. -/
theorem hello_explain_no_boot (cfg : Yaml) (p : String) (w : World) :
    (hello true cfg p w).1.countP isBootAttempt = 0 ∧
    exitStatus (hello true cfg p w).2 = 0 :=
  ⟨rfl, rfl⟩

/-- The configuration mapping {audio: {invalid_option: true}} from the
specification scenario for a failing boot. -/
def c1Config : Yaml :=
  .map [("audio", .map [("invalid_option", .bool true)])]

/-- C1: with the configuration {audio: {invalid_option: true}}, when the
server cannot boot (ServerCannotBoot), hello without the explain flag
prints the diagnostic naming the configuration path and the hint naming
the device-listing command, exits the process with status 1, and leaves
no server process running.  The hypothesis `hopt` records the
specification premise that the failure surfaces at boot time rather than
at option construction. -/
theorem hello_boot_failure_diagnostics (p : String) (w : World)
    (hopt : w.optionsOk = true) (hboot : w.bootOk = false) :
    (hello false c1Config p w).2 = .exited 1 ∧
    Event.printBootFail p ∈ (hello false c1Config p w).1 ∧
    Event.printDevicesHint ∈ (hello false c1Config p w).1 ∧
    serversRunning (hello false c1Config p w).1 = 0 := by
  have htrace : hello false c1Config p w =
      ([Event.printAudioBootMsg p, Event.printAttemptMsg, Event.boot true false,
        Event.printBootFail p, Event.printDevicesHint], Outcome.exited 1) := by
    simp only [hello, helloExec, c1Config, pyGet, List.lookup, Yaml.truthy, hopt, hboot,
      Bool.false_eq_true, if_false, if_true]
    rfl
  rw [htrace]
  refine ⟨rfl, ?_, ?_, rfl⟩
  · simp
  · simp

/-- Oracle in which option construction succeeds but the boot raises
ServerCannotBoot and no later call is reached. -/
def bootFailWorld : World :=
  ⟨true, false, false, false, false, fun _ => false, fun _ => false⟩

/-- Witness for C1 at the default configuration path and the
boot-failing oracle. -/
theorem hello_boot_failure_diagnostics_witness :
    bootFailWorld.optionsOk = true ∧ bootFailWorld.bootOk = false ∧
    ((hello false c1Config "supriya.config.yaml" bootFailWorld).2 = .exited 1 ∧
      Event.printBootFail "supriya.config.yaml" ∈
        (hello false c1Config "supriya.config.yaml" bootFailWorld).1 ∧
      Event.printDevicesHint ∈
        (hello false c1Config "supriya.config.yaml" bootFailWorld).1 ∧
      serversRunning (hello false c1Config "supriya.config.yaml" bootFailWorld).1 = 0) :=
  ⟨rfl, rfl, hello_boot_failure_diagnostics "supriya.config.yaml" bootFailWorld rfl rfl⟩

/-- C10: when the configuration file parses successfully to a value that
is not a mapping (for example an empty file, which yaml.safe_load turns
into None), the loader exposes that value unchanged (no warning, not the
empty mapping), and hello in execution mode raises AttributeError at the
CONFIG.get("audio") call without ever attempting to boot a server. -/
theorem config_nonmapping_attribute_error (parse : String → Except String Yaml)
    (contents : String) (v : Yaml) (p : String) (w : World)
    (hparse : parse contents = .ok v) (hv : v.isMap = false) :
    loadConfig (some contents) parse = (v, false) ∧
    (hello false v p w).2 = .raised .attributeError ∧
    (hello false v p w).1.countP isBootAttempt = 0 := by
  refine ⟨by simp [loadConfig, hparse], ?_, ?_⟩ <;>
    cases v <;> simp_all [Yaml.isMap, hello, helloExec, pyGet]

/-- Witness for C10: an empty configuration file parsing to null makes
hello raise AttributeError before any boot attempt. -/
theorem config_nonmapping_attribute_error_witness :
    (fun _ : String => (Except.ok Yaml.null : Except String Yaml)) "" = .ok Yaml.null ∧
    Yaml.null.isMap = false ∧
    (loadConfig (some "") (fun _ => Except.ok Yaml.null) = (Yaml.null, false) ∧
      (hello false Yaml.null "supriya.config.yaml" idleWorld).2 =
        .raised .attributeError ∧
      (hello false Yaml.null "supriya.config.yaml" idleWorld).1.countP isBootAttempt = 0) :=
  ⟨rfl, rfl, config_nonmapping_attribute_error (fun _ => Except.ok Yaml.null) ""
    Yaml.null "supriya.config.yaml" idleWorld rfl rfl⟩

/- ### info.py: the device inspector -/

/-- Cell values of the pandas DataFrame built from the sounddevice
snapshot: integers, floats (modelled as rationals) and strings. -/
inductive PyVal where
  | int (n : Int)
  | float (q : ℚ)
  | str (s : String)
  deriving DecidableEq

/-- The device snapshot turned into a DataFrame: a column schema and one
row of cells per device. -/
structure DataFrame where
  columns : List String
  rows : List (List PyVal)
  deriving DecidableEq

/-- Rounding to the nearest integer with ties to even, the rounding used
by numpy and hence by pandas DataFrame.round. -/
def roundHalfEven (x : ℚ) : ℤ :=
  if x - ⌊x⌋ < 1 / 2 then ⌊x⌋
  else if 1 / 2 < x - ⌊x⌋ then ⌊x⌋ + 1
  else if ⌊x⌋ % 2 = 0 then ⌊x⌋ else ⌊x⌋ + 1

/-- Rounding a float to 2 decimal places, as df.round(2) does. -/
def round2 (q : ℚ) : ℚ := (roundHalfEven (q * 100) : ℤ) / 100

/-- df.round(2) on one cell: floats are rounded to 2 decimal places,
integers and strings are left unchanged. -/
def PyVal.roundVal : PyVal → PyVal
  | .float q => .float (round2 q)
  | v => v

/-- df.round(2) in the devices command (info.py line 40). -/
def DataFrame.roundCells (df : DataFrame) : DataFrame :=
  ⟨df.columns, df.rows.map (List.map PyVal.roundVal)⟩

/-- df[columns] in the devices command (info.py line 42): projection to
the requested columns in the requested order; pandas raises KeyError
when any requested column is missing from the schema. -/
def DataFrame.select (df : DataFrame) (cols : List String) : Except PyErr DataFrame :=
  if cols.all (fun c => df.columns.contains c) then
    .ok ⟨cols, df.rows.map (fun row =>
      cols.map (fun c => ((df.columns.zip row).lookup c).getD (.str "")))⟩
  else
    .error .keyError

/-- Column header rendering: underscores become line breaks
("\n".join(col.split("_"))). -/
def headerName (col : String) : String := String.intercalate "\n" (col.splitOn "_")

/-- str() conversion of a cell for the rich table. -/
def pyStr : PyVal → String
  | .int n => toString n
  | .float q => toString q
  | .str s => s

/-- The rich table printed by the devices command: header labels and
string cells. -/
structure RenderedTable where
  headers : List String
  cells : List (List String)
  deriving DecidableEq

/-- Building the rich table from a DataFrame (info.py lines 43-47). -/
def renderTable (df : DataFrame) : RenderedTable :=
  ⟨df.columns.map headerName, df.rows.map (List.map pyStr)⟩

/-- The devices command (info.py lines 30-48) given the device snapshot
as a DataFrame: round numeric cells to 2 decimals, then, when a
column filter was supplied (a non-empty list; typer passes None or []
otherwise, both falsy), project to the requested columns, then render
the table.  A KeyError from the projection propagates. -/
def devicesRun (snapshot : DataFrame) (columns : List String) :
    Except PyErr RenderedTable :=
  match (if columns.isEmpty then Except.ok snapshot.roundCells
         else snapshot.roundCells.select columns) with
  | .ok df => .ok (renderTable df)
  | .error e => .error e

/-- Ties-to-even integer rounding moves a rational by at most one half. -/
theorem roundHalfEven_close (x : ℚ) :
    |((roundHalfEven x : ℤ) : ℚ) - x| ≤ 1 / 2 := by
  have hf : (⌊x⌋ : ℚ) ≤ x := Int.floor_le x
  have hx : x < ⌊x⌋ + 1 := Int.lt_floor_add_one x
  unfold roundHalfEven
  split_ifs with h1 h2 h3 <;> rw [abs_le] <;> constructor <;> push_cast <;> linarith

/-- A float rounded to 2 decimal places is an exact multiple of 0.01. -/
theorem round2_den (q : ℚ) : (round2 q * 100).den = 1 := by
  have h : round2 q * 100 = ((roundHalfEven (q * 100) : ℤ) : ℚ) := by
    rw [round2]
    exact div_mul_cancel₀ _ (by norm_num)
  rw [h, Rat.den_intCast]

/-- Rounding a float to 2 decimal places moves it by at most 0.005. -/
theorem round2_close (q : ℚ) : |round2 q - q| ≤ 1 / 200 := by
  have h := roundHalfEven_close (q * 100)
  have heq : round2 q - q = (((roundHalfEven (q * 100) : ℤ) : ℚ) - q * 100) / 100 := by
    rw [round2]
    ring
  rw [heq, abs_div]
  have h100 : |(100 : ℚ)| = 100 := by norm_num
  rw [h100]
  linarith [abs_nonneg (((roundHalfEven (q * 100) : ℤ) : ℚ) - q * 100)]

/-- C7: every numeric cell of the device snapshot is rounded to 2
decimal places by the devices command before rendering: in the rounded
DataFrame the cell holds round2 of the original float, which is an exact
multiple of 0.01 and within 0.005 of the original value. -/
theorem devices_rounding (snap : DataFrame) (i j : Nat) (q : ℚ)
    (h : (snap.rows[i]?.bind fun r => r[j]?) = some (.float q)) :
    (snap.roundCells.rows[i]?.bind fun r => r[j]?) = some (.float (round2 q)) ∧
    (round2 q * 100).den = 1 ∧ |round2 q - q| ≤ 1 / 200 := by
  refine ⟨?_, round2_den q, round2_close q⟩
  obtain ⟨r, hr, hj⟩ : ∃ r, snap.rows[i]? = some r ∧ r[j]? = some (.float q) := by
    rcases hx : snap.rows[i]? with _ | r
    · rw [hx] at h
      simp at h
    · rw [hx] at h
      exact ⟨r, rfl, by simpa using h⟩
  have hrow : snap.roundCells.rows[i]? = some (r.map PyVal.roundVal) := by
    simp [DataFrame.roundCells, List.getElem?_map, hr]
  rw [hrow]
  simp [List.getElem?_map, hj, PyVal.roundVal]

/-- A two-column device snapshot with one device row. -/
def deviceSnap : DataFrame :=
  ⟨["name", "default_low_latency"], [[.str "Microphone", .float (9 / 1000)]]⟩

/-- Witness for C7 at a concrete snapshot whose latency cell is 0.009. -/
theorem devices_rounding_witness :
    (deviceSnap.rows[0]?.bind fun r => r[1]?) = some (.float (9 / 1000)) ∧
    ((deviceSnap.roundCells.rows[0]?.bind fun r => r[1]?) =
        some (.float (round2 (9 / 1000))) ∧
      (round2 (9 / 1000) * 100).den = 1 ∧ |round2 (9 / 1000) - 9 / 1000| ≤ 1 / 200) :=
  ⟨rfl, devices_rounding deviceSnap 0 1 (9 / 1000) rfl⟩

/-- C6: when the devices command is given a non-empty column filter, the
rendered table has exactly the requested columns, in order (headers are
the requested names with underscores turned into line breaks); when any
requested column is missing from the snapshot schema, the command fails
with KeyError instead of silently omitting the column. -/
theorem devices_columns_filter (snap : DataFrame) (cols : List String)
    (hne : cols.isEmpty = false) :
    (cols.all (fun c => snap.columns.contains c) = true →
      ∃ cells, devicesRun snap cols = .ok ⟨cols.map headerName, cells⟩) ∧
    (cols.all (fun c => snap.columns.contains c) = false →
      devicesRun snap cols = .error .keyError) := by
  constructor
  · intro hall
    have hc : (cols.all fun c => snap.roundCells.columns.contains c) = true := hall
    have hsel : snap.roundCells.select cols =
        .ok ⟨cols, snap.roundCells.rows.map (fun row =>
          cols.map fun c => ((snap.roundCells.columns.zip row).lookup c).getD (.str ""))⟩ := by
      simp [DataFrame.select]
      simpa using hc
    refine ⟨(snap.roundCells.rows.map (fun row =>
        cols.map fun c => ((snap.roundCells.columns.zip row).lookup c).getD (.str ""))).map
          (List.map pyStr), ?_⟩
    simp [devicesRun, hne, hsel, renderTable]
  · intro hfail
    have hc : (cols.all fun c => snap.roundCells.columns.contains c) = false := hfail
    have hsel : snap.roundCells.select cols = .error .keyError := by
      simp [DataFrame.select]
      simpa using hc
    simp [devicesRun, hne, hsel]

/-- Witness for C6: filtering the concrete snapshot to its name column. -/
theorem devices_columns_filter_witness :
    (["name"] : List String).isEmpty = false ∧
    ((["name"].all (fun c => deviceSnap.columns.contains c) = true →
      ∃ cells, devicesRun deviceSnap ["name"] = .ok ⟨["name"].map headerName, cells⟩) ∧
     (["name"].all (fun c => deviceSnap.columns.contains c) = false →
      devicesRun deviceSnap ["name"] = .error .keyError)) :=
  ⟨rfl, devices_columns_filter deviceSnap ["name"] rfl⟩

/- ### app.py: the CLI dispatcher -/

/-- Console output of the root callback. -/
inductive AppEvent where
  | renderReadme (content : String)
  | printFallback (text : String)
  deriving DecidableEq

/-- The built-in welcome text printed when the bundled README is absent. -/
def fallbackText : String :=
  "Welcome to Supriya Music!\n\nThis toolkit provides basic examples for using the Supriya system."

/-- Path.read_text: returns the file contents, or raises
FileNotFoundError when the file is absent. -/
def readText : Option String → Except PyErr String
  | some s => .ok s
  | none => .error .fileNotFound

/-- The root callback of app.py (lines 22-50): with a subcommand it does
nothing; without one it reads the bundled README and renders it in a
panel, and its except FileNotFoundError clause prints the built-in
welcome panel instead; any other exception would propagate. -/
def mainCallback (invokedSubcommand : Option String) (readme : Option String) :
    Except PyErr (List AppEvent) :=
  match invokedSubcommand with
  | some _ => .ok []
  | none =>
    match readText readme with
    | .ok content => .ok [.renderReadme content]
    | .error .fileNotFound => .ok [.printFallback fallbackText]
    | .error e => .error e

/-- C8: root invocation with no subcommand while the bundled README is
absent prints the built-in fallback welcome text and does not raise. -/
theorem main_fallback_when_readme_absent :
    mainCallback none none = .ok [AppEvent.printFallback fallbackText] := rfl
